import Mathlib

/- Formal model of the RXV protocol client in
   custom_components/ha_yamaha/rxv.py.

   Python functions are translated as executable Lean definitions:
   stateful methods become explicit state passing, network traffic becomes
   an explicit trace of issued requests, machine-level floats become exact
   rationals (every value the volume path manipulates is exactly
   representable), and fallible code returns Except.  Device responses are
   supplied by small oracle structures so that request/response behaviour
   can be examined for arbitrary device answers. -/

/-- Model of the Python values that can appear where the modelled code is
dynamically typed: None, strings, and two-element tuples. -/
inductive PyVal where
  | none
  | str (s : String)
  | pair (a b : PyVal)
  deriving DecidableEq

/-- Python exceptions raised by the modelled code paths, mirroring the
exception classes in exceptions.py plus the builtin exceptions the code
can raise. -/
inductive PyErr where
  | assertionError
  | attributeError
  | typeError
  | valueError
  | indexError
  | menuUnavailable (curInput : Option String)
  | playbackUnavailable (input : PyVal) (action : String)
  deriving DecidableEq

/-- Python truthiness for the modelled values: None and the empty string
are falsy, non-empty strings and tuples are truthy. -/
def pyTruthy : PyVal → Bool
  | .none => false
  | .str s => s != ""
  | .pair _ _ => true

/-- Python truthiness of an optional string (None or str). -/
def pyOptTruthy : Option String → Bool
  | Option.none => false
  | some s => s != ""

/- ## Python string primitives

   The string methods the code relies on are modelled structurally over
   the code-point list of the string (String.data), which matches Python
   semantics where strings are code-point sequences. -/

/-- Python str.upper(). -/
def pyUpper (s : String) : String := String.mk (s.data.map Char.toUpper)

/-- Code-point list ls starts with code-point list p. -/
def listStarts : List Char → List Char → Bool
  | [], _ => true
  | _ :: _, [] => false
  | p :: ps, c :: cs => p == c && listStarts ps cs

/-- Python str.startswith(p). -/
def pyStartsWith (s p : String) : Bool := listStarts p.data s.data

/-- Splitting a code-point list at every occurrence of a separator
character; the result always has at least one group. -/
def charSplit (sep : Char) : List Char → List (List Char)
  | [] => [[]]
  | c :: cs =>
    let r := charSplit sep cs
    if c == sep then [] :: r
    else
      match r with
      | [] => [[c]]
      | g :: gs => (c :: g) :: gs

/-- Python path.split(">"), the only split the code performs (the
separator is a single character, so substring splitting degenerates to
character splitting). -/
def pySplitGt (s : String) : List String := (charSplit '>' s.data).map String.mk

/-- Python slicing s[n:] (by code points). -/
def pyDropChars (s : String) (n : Nat) : String := String.mk (s.data.drop n)

/-- The whitespace int() strips (ASCII portion). -/
def isPySpace (c : Char) : Bool :=
  c == ' ' || c == '\t' || c == '\n' || c == '\r' || c == '\x0b' || c == '\x0c'

/-- Strip leading and trailing whitespace from a code-point list. -/
def pyStrip (l : List Char) : List Char :=
  ((l.dropWhile isPySpace).reverse.dropWhile isPySpace).reverse

/-- The value of a non-empty digit run; None on the empty run or on any
non-digit character. -/
def pyDigitsVal : List Char → Option Nat → Option Nat
  | [], acc => acc
  | c :: cs, acc =>
    if c.isDigit then pyDigitsVal cs (some ((acc.getD 0) * 10 + (c.toNat - 48)))
    else Option.none

/- ## Volume codec (rxv.py lines 850-873) -/

/-- Python int() applied to an exact real value: truncation toward zero. -/
def pyTrunc (q : ℚ) : ℤ := if 0 ≤ q then ⌊q⌋ else ⌈q⌉

/-- Python round() applied to an exact real value: nearest integer,
halves to even. -/
def pyRoundHalfEven (q : ℚ) : ℤ :=
  if q - ⌊q⌋ < 1/2 then ⌊q⌋
  else if 1/2 < q - ⌊q⌋ then ⌊q⌋ + 1
  else if Even ⌊q⌋ then ⌊q⌋ else ⌊q⌋ + 1

/-- `async_set_volume`: value = str(int(value * 2) * 5).  The integer
transmitted in the Val element of the request. -/
def asyncSetVolumeVal (value : ℚ) : ℤ := pyTrunc (value * 2) * 5

/-- `async_get_volume`: float(vol) / 10.0 where vol is the stored integer
value reported by the device.  Both the stored value times one tenth and
the division are exact (the quotient is an integer multiple of one half,
hence exactly representable), so the rational model is faithful. -/
def asyncGetVolume (storedVal : ℤ) : ℚ := (storedVal : ℚ) / 10

/- ## Command envelopes (rxv.py lines 52-84, 415-439) -/

/-- YamahaCommand template. -/
def yamahaCommand (command payload : String) : String :=
  "<YAMAHA_AV cmd=\"" ++ command ++ "\">" ++ payload ++ "</YAMAHA_AV>"

/-- Zone template: wraps the request in the zone tag. -/
def zoneWrap (zone requestText : String) : String :=
  "<" ++ zone ++ ">" ++ requestText ++ "</" ++ zone ++ ">"

/-- `_async_request`: the trace entry recorded for one round trip, the
command kind together with the full request text that is posted. -/
def mkReq (zone command requestText : String) (zoneCmd : Bool) : String × String :=
  (command, yamahaCommand command (if zoneCmd then zoneWrap zone requestText else requestText))

/-- DirectMode template. -/
def directModeBody (parameter : String) : String :=
  "<Sound_Video><Direct>" ++ parameter ++ "</Direct></Sound_Video>"

/-- SurroundProgram template. -/
def surroundProgramBody (parameter : String) : String :=
  "<Surround><Program_Sel><Current>" ++ parameter ++ "</Current></Program_Sel></Surround>"

/- ## Surround / direct mode operations (rxv.py lines 565-641) -/

/-- The parts of the RXV session state the surround operations read:
the addressed zone and the discovered per-zone surround program map. -/
structure SurroundCfg where
  zone : String
  zoneSurroundPrograms : List (String × List String)

/-- Oracle for the device's answers to the GET requests the surround
operations issue: the text of Sound_Video/Direct/Mode, of
Surround/Program_Sel/Current/Straight and of .../Current/Sound_Program. -/
structure SurroundDevice where
  directModeText : String
  straightText : String
  soundProgramText : String

/-- zone_surround_programs.get(self.zone, []). -/
def SurroundCfg.programs (cfg : SurroundCfg) : List String :=
  (cfg.zoneSurroundPrograms.lookup cfg.zone).getD []

/-- `async_get_direct_mode`: returns False without touching the network
when "Direct" is not among the zone's programs, otherwise issues one GET
and reports whether the device answered "On".  Result: the trace of
requests issued and the returned boolean. -/
def asyncGetDirectMode (cfg : SurroundCfg) (dev : SurroundDevice) :
    List (String × String) × Bool :=
  if "Direct" ∈ cfg.programs then
    ([mkReq cfg.zone "GET" (directModeBody "<Mode>GetParam</Mode>") true],
      dev.directModeText == "On")
  else ([], false)

/-- `async_set_direct_mode`: asserts "Direct" is supported for the zone,
then issues one PUT switching the mode On or Off. -/
def asyncSetDirectMode (cfg : SurroundCfg) (turnOn : Bool) :
    Except PyErr (List (String × String)) :=
  if "Direct" ∈ cfg.programs then
    .ok [mkReq cfg.zone "PUT"
      (directModeBody (if turnOn then "<Mode>On</Mode>" else "<Mode>Off</Mode>")) true]
  else .error .assertionError

/-- The parameter chosen by `async_set_surround_program` for a non-Direct
program: Straight toggles the Straight flag, otherwise the named program
is written into Sound_Program. -/
def surroundProgramParam (surroundName : String) : String :=
  if surroundName == "Straight" then "<Straight>On</Straight>"
  else "<Sound_Program>" ++ surroundName ++ "</Sound_Program>"

/-- The single PUT issued to select a non-Direct surround program. -/
def setSurroundProgramReq (cfg : SurroundCfg) (surroundName : String) : String × String :=
  mkReq cfg.zone "PUT" (surroundProgramBody (surroundProgramParam surroundName)) true

/-- `async_set_surround_program`: asserts membership, short-circuits on
"Direct", otherwise clears direct mode first when it is reported active,
then selects Straight or the named program.  Result: the trace of all
requests issued (GETs and PUTs) in order, and the outcome. -/
def asyncSetSurroundProgram (cfg : SurroundCfg) (dev : SurroundDevice)
    (surroundName : String) :
    List (String × String) × Except PyErr Unit :=
  if surroundName ∈ cfg.programs then
    if surroundName == "Direct" then
      match asyncSetDirectMode cfg true with
      | .ok t => (t, .ok ())
      | .error e => ([], .error e)
    else
      let p := asyncGetDirectMode cfg dev
      if p.2 then
        match asyncSetDirectMode cfg false with
        | .ok t2 => (p.1 ++ t2 ++ [setSurroundProgramReq cfg surroundName], .ok ())
        | .error e => (p.1, .error e)
      else (p.1 ++ [setSurroundProgramReq cfg surroundName], .ok ())
  else ([], .error .assertionError)

/-- `async_get_surround_program`: Direct first, then Straight, then the
reported Sound_Program name. -/
def asyncGetSurroundProgram (cfg : SurroundCfg) (dev : SurroundDevice) :
    List (String × String) × String :=
  let p := asyncGetDirectMode cfg dev
  if p.2 then (p.1, "Direct")
  else
    let t2 := [mkReq cfg.zone "GET" (surroundProgramBody "GetParam") true]
    if dev.straightText == "On" then (p.1 ++ t2, "Straight")
    else (p.1 ++ t2, dev.soundProgramText)

/-- The PUT requests of a trace, in order. -/
def putsOf (trace : List (String × String)) : List (String × String) :=
  trace.filter (fun r => r.1 == "PUT")

/- ## Playback support and control (rxv.py lines 472-519, 681-716) -/

/-- Events observable in the playback code paths: the GET resolving the
current input, and the Play_Control PUT carrying a playback action. -/
inductive PbEv where
  | getInput
  | playPut (srcName : String) (action : String)
  deriving DecidableEq

/-- Conversion of an optional string into a dynamically typed value. -/
def optToVal : Option String → PyVal
  | Option.none => .none
  | some s => .str s

/-- The string content of a value known to be a str at runtime. -/
def pyValStr : PyVal → String
  | .str s => s
  | _ => ""

/-- `_async_get_src_name(cur_input)`: when no explicit input is passed the
current input is fetched from the device (one GET, `devInput` being the
device's answer); unknown inputs resolve to (None, None); HDMI-prefixed
inputs resolve to the zone itself; otherwise the internal source name from
inputs_source.  Returns the recorded events and the returned 2-tuple. -/
def asyncGetSrcName (inputsSource : List (String × String)) (zone devInput : String)
    (curInputArg : Option String) : List PbEv × (PyVal × PyVal) :=
  let r : List PbEv × String :=
    match curInputArg with
    | some c => ([], c)
    | Option.none => ([PbEv.getInput], devInput)
  let curInput := r.2
  if (inputsSource.lookup curInput).isNone then (r.1, (.none, .none))
  else if pyStartsWith (pyUpper curInput) "HDMI" then (r.1, (.str zone, .str curInput))
  else (r.1, (optToVal (inputsSource.lookup curInput), .str curInput))

/-- Container mirroring class PlaybackSupport. -/
structure PlaybackSupport where
  play : Bool
  stop : Bool
  pause : Bool
  skip_f : Bool
  skip_r : Bool
  deriving DecidableEq

/-- dict.get on the string-keyed source_play_methods dict with an
arbitrary runtime value as key: a key that is not a string is never
present in the dict, so the default is returned. -/
def pyDictGet (d : List (String × List String)) (key : PyVal) : Option (List String) :=
  match key with
  | .str s => d.lookup s
  | _ => Option.none

/-- `supports_play_method`: method in source_play_methods.get(source, {})
(membership in the default empty dict is False, modelled by the empty
list). -/
def supportsPlayMethod (methods : List (String × List String)) (source : PyVal)
    (method : String) : Bool :=
  ((pyDictGet methods source).getD []).contains method

/-- `async_get_playback_support`: binds the whole 2-tuple returned by
`_async_get_src_name` to src_name and uses it - unchanged - as the lookup
key for every flag. -/
def asyncGetPlaybackSupport (inputsSource : List (String × String))
    (methods : List (String × List String)) (zone devInput : String)
    (inputSource : Option String) : List PbEv × PlaybackSupport :=
  let r := asyncGetSrcName inputsSource zone devInput inputSource
  let key : PyVal := .pair r.2.1 r.2.2
  (r.1,
    { play := supportsPlayMethod methods key "Play"
      pause := supportsPlayMethod methods key "Pause"
      stop := supportsPlayMethod methods key "Stop"
      skip_f := supportsPlayMethod methods key "Skip Fwd"
      skip_r := supportsPlayMethod methods key "Skip Rev" })

/-- `async_is_playback_supported`: the play flag of the support record. -/
def asyncIsPlaybackSupported (inputsSource : List (String × String))
    (methods : List (String × List String)) (zone devInput : String)
    (inputSource : Option String) : List PbEv × Bool :=
  let r := asyncGetPlaybackSupport inputsSource methods zone devInput inputSource
  (r.1, r.2.play)

/-- `_async_playback_control`: resolves the source, returns None when the
source is falsy, raises PlaybackUnavailable when playback is reported
unsupported, otherwise sends the Play_Control PUT for the action. -/
def asyncPlaybackControl (inputsSource : List (String × String))
    (methods : List (String × List String)) (zone devInput : String)
    (action : String) : List PbEv × Except PyErr (Option Unit) :=
  let r := asyncGetSrcName inputsSource zone devInput Option.none
  let src := r.2.1
  let cur := r.2.2
  if pyTruthy src = false then (r.1, .ok Option.none)
  else
    let arg : Option String := match cur with | .str c => some c | _ => Option.none
    let s := asyncIsPlaybackSupported inputsSource methods zone devInput arg
    if s.2 = false then (r.1 ++ s.1, .error (.playbackUnavailable cur action))
    else (r.1 ++ s.1 ++ [.playPut (pyValStr src) action], .ok (some ()))

/-- The (src_name, cur_input) tuple `_async_playback_control` destructures
when called with no explicit input. -/
def playbackResolved (inputsSource : List (String × String)) (zone devInput : String) :
    PyVal × PyVal :=
  (asyncGetSrcName inputsSource zone devInput Option.none).2

/- ## Zone controllers (rxv.py lines 144-158, 654-673) -/

/-- Mirror of the RXVDeviceinfo dataclass: the capability set discovered
once per device. -/
structure RXVDeviceinfoM where
  deviceId : String
  friendlyName : String
  manufacturer : String
  modelName : String
  serialNumber : String
  icons : List String
  zones : List String
  commands : List (List String)
  zoneSurroundPrograms : List (String × List String)
  sourcePlayMethods : List (String × List String)
  sourceCursorActions : List (String × List String)
  inputsSource : List (String × String)
  scenesNumber : List (String × String)
  deriving DecidableEq

/-- The session state a zone controller owns: the addressed zone plus the
shared capability record (shared by reference in Python; value equality
here expresses that no controller gets its own copy). -/
structure RXVState where
  zone : String
  device : RXVDeviceinfoM
  deriving DecidableEq

/-- The zone property setter: assert membership in the discovered zones,
then mutate the selection; the assert fires before the mutation, so on
failure the state is returned unchanged together with the exception. -/
def zoneSet (r : RXVState) (zoneName : String) : RXVState × Option PyErr :=
  if zoneName ∈ r.device.zones then ({ r with zone := zoneName }, Option.none)
  else (r, some .assertionError)

/-- `zone_controllers`: one shallow copy of the session per discovered
zone, each with its zone selection set through the validating setter. -/
def zoneControllers (r : RXVState) : Except PyErr (List RXVState) :=
  r.device.zones.foldlM (fun acc z =>
    match zoneSet r z with
    | (c, Option.none) => .ok (acc ++ [c])
    | (_, some e) => .error e) []

/- ## Menu status and traversal (rxv.py lines 743-765, 846-848, 976-1041) -/

/-- Mirror of the MenuStatus namedtuple; current_list is the ordered
line-identifier to display-text mapping built from the response. -/
structure MenuStatusM where
  ready : Bool
  layer : ℤ
  name : String
  currentLine : ℤ
  maxLine : ℤ
  currentList : List (String × String)

/-- Oracle for the device during menu traversal: the menu status the
device reports in state s, and the state reached after a Direct_Sel
jump to a line number. -/
structure MenuDevice (σ : Type) where
  menuStatus : σ → MenuStatusM
  directSel : σ → String → σ

/-- Observable events of the traversal operations: the input PUT, one
List_Info poll per loop attempt, and the Direct_Sel line jumps. -/
inductive MenuEv where
  | setInput (name : String)
  | poll
  | directSel (lineno : String)
  deriving DecidableEq

/-- Number of menu-status polls in a trace. -/
def pollCount (evs : List MenuEv) : Nat :=
  (evs.filter (fun e => e == MenuEv.poll)).length

/-- Python list indexing, with negative indices counting from the end and
IndexError outside the range. -/
def pyIndex (l : List String) (i : ℤ) : Except PyErr String :=
  let j := if i < 0 then i + l.length else i
  if 0 ≤ j ∧ j < l.length then .ok (l.getD j.toNat "") else .error .indexError

/-- `_async_get_src_name` as used by the menu operations, where the
current input is read from the device: (None, None) for unknown inputs,
the zone for HDMI inputs, otherwise the mapped internal source name. -/
def resolveSrc (inputsSource : List (String × String)) (zone curInput : String) :
    Option String × Option String :=
  if (inputsSource.lookup curInput).isNone then (Option.none, Option.none)
  else if pyStartsWith (pyUpper curInput) "HDMI" then (some zone, some curInput)
  else (inputsSource.lookup curInput, some curInput)

/-- The `for attempt in range(20)` loop shared by `async_set_net_radio`
and `async_set_server` (fuel = remaining attempts).  Each attempt fetches
the menu status (raising MenuUnavailable when the source is falsy); when
ready it scans the visible lines for the segment of the current layer
(evaluating layers[menu.layer - 1] only when there is a line to compare,
as the Python for loop does), jumps to the first match, returns when the
matched layer is the final one, and otherwise moves to the next attempt;
when not ready it proceeds to the next attempt (the un-awaited
asyncio.sleep(1) introduces no wait).  Falling out of the loop returns
None. -/
def menuLoop {σ : Type} (dev : MenuDevice σ) (inputsSource : List (String × String))
    (zone curInput : String) (layers : List String) :
    Nat → σ → List MenuEv × Except PyErr Unit
  | 0, _ => ([], .ok ())
  | fuel + 1, s =>
    let rs := resolveSrc inputsSource zone curInput
    if pyOptTruthy rs.1 = false then ([], .error (.menuUnavailable rs.2))
    else
      let menu := dev.menuStatus s
      if menu.ready then
        match menu.currentList with
        | [] =>
          let r := menuLoop dev inputsSource zone curInput layers fuel s
          (MenuEv.poll :: r.1, r.2)
        | _ :: _ =>
          match pyIndex layers (menu.layer - 1) with
          | .error e => ([MenuEv.poll], .error e)
          | .ok seg =>
            match menu.currentList.find? (fun p => p.2 == seg) with
            | Option.none =>
              let r := menuLoop dev inputsSource zone curInput layers fuel s
              (MenuEv.poll :: r.1, r.2)
            | some line =>
              let lineno := pyDropChars line.1 5
              if menu.layer == (layers.length : ℤ) then
                ([MenuEv.poll, MenuEv.directSel lineno], .ok ())
              else
                let r := menuLoop dev inputsSource zone curInput layers fuel
                  (dev.directSel s lineno)
                (MenuEv.poll :: MenuEv.directSel lineno :: r.1, r.2)
      else
        let r := menuLoop dev inputsSource zone curInput layers fuel s
        (MenuEv.poll :: r.1, r.2)

/-- `async_set_input`: assert the input name is a key of inputs_source,
then issue the input-selection PUT. -/
def asyncSetInputM (inputsSource : List (String × String)) (inputName : String) :
    Except PyErr MenuEv :=
  if (inputsSource.lookup inputName).isSome then .ok (MenuEv.setInput inputName)
  else .error .assertionError

/-- `async_menu_reset` (rxv.py lines 846-848): the body is
`while self.menu_status().layer > 1: self.menu_return()`, but RXV defines
no attributes named menu_status or menu_return (the existing methods are
async_get_menu_status and async_menu_return), so the very first attribute
access raises AttributeError before anything is issued. -/
def asyncMenuReset : Except PyErr Unit := .error .attributeError

/-- `async_set_server`: split the path on ">", switch input to SERVER,
then run the bounded traversal loop (20 attempts). -/
def asyncSetServer {σ : Type} (dev : MenuDevice σ)
    (inputsSource : List (String × String)) (zone path : String) (s : σ) :
    List MenuEv × Except PyErr Unit :=
  let layers := pySplitGt path
  match asyncSetInputM inputsSource "SERVER" with
  | .error e => ([], .error e)
  | .ok ev =>
    let r := menuLoop dev inputsSource zone "SERVER" layers 20 s
    (ev :: r.1, r.2)

/-- `async_set_net_radio`: split the path on ">", switch input to
NET RADIO, reset the menu (which raises, see asyncMenuReset), then run
the bounded traversal loop. -/
def asyncSetNetRadio {σ : Type} (dev : MenuDevice σ)
    (inputsSource : List (String × String)) (zone path : String) (s : σ) :
    List MenuEv × Except PyErr Unit :=
  let layers := pySplitGt path
  match asyncSetInputM inputsSource "NET RADIO" with
  | .error e => ([], .error e)
  | .ok ev =>
    match asyncMenuReset with
    | .error e => ([ev], .error e)
    | .ok _ =>
      let r := menuLoop dev inputsSource zone "NET RADIO" layers 20 s
      (ev :: r.1, r.2)

/-- Simulated device that never becomes ready (spec scenario). -/
def neverReadyDevice : MenuDevice Unit where
  menuStatus _ :=
    { ready := false, layer := 1, name := "", currentLine := 0, maxLine := 0,
      currentList := [] }
  directSel s _ := s

/-- Simulated device that is ready immediately and shows the wanted path
segment at every layer (spec scenario): in state k it reports layer k+1
with a single selectable line holding segment k, and a line jump advances
one layer. -/
def goodServerDevice (layers : List String) : MenuDevice Nat where
  menuStatus k :=
    { ready := true, layer := (k : ℤ) + 1, name := "", currentLine := 1, maxLine := 1,
      currentList := [("Line_1", layers.getD k "")] }
  directSel k _ := k + 1


/- ## Descriptor XML model (rxv.py lines 285-305, 359-389, 593-594) -/

mutual
/-- Minimal model of an ElementTree element: tag, attributes, text and
children in document order.  XML namespace URI prefixes on tags are
elided (they are constant decoration in the queries the code uses); tags
are modelled by their local names. -/
inductive XmlElem where
  | mk (tag : String) (attrs : List (String × String)) (text : Option String)
      (children : XmlForest)
/-- The children of an element, in document order. -/
inductive XmlForest where
  | nil
  | cons (head : XmlElem) (tail : XmlForest)
end

/-- Build a forest from a list of elements. -/
def XmlForest.ofList : List XmlElem → XmlForest
  | [] => .nil
  | c :: cs => .cons c (XmlForest.ofList cs)

/-- The elements of a forest as a list. -/
def XmlForest.toList : XmlForest → List XmlElem
  | .nil => []
  | .cons c cs => c :: XmlForest.toList cs

def XmlElem.tag : XmlElem → String
  | .mk t _ _ _ => t

def XmlElem.attrs : XmlElem → List (String × String)
  | .mk _ a _ _ => a

def XmlElem.text : XmlElem → Option String
  | .mk _ _ tx _ => tx

def XmlElem.children : XmlElem → List XmlElem
  | .mk _ _ _ cs => cs.toList

/-- Element.get(key): attribute lookup. -/
def XmlElem.getAttr (e : XmlElem) (k : String) : Option String := e.attrs.lookup k

mutual
/-- All strict descendants of an element in document order, as traversed
by the `.//` ElementTree queries. -/
def XmlElem.descendants : XmlElem → List XmlElem
  | .mk _ _ _ cs => XmlForest.descList cs
/-- The members of a forest together with their descendants, in document
order. -/
def XmlForest.descList : XmlForest → List XmlElem
  | .nil => []
  | .cons c cs => c :: XmlElem.descendants c ++ XmlForest.descList cs
end

/-- findall('.//' + predicate): all matching descendants in document
order. -/
def findAllDesc (e : XmlElem) (p : XmlElem → Bool) : List XmlElem :=
  (XmlElem.descendants e).filter p

/-- find('.//' + predicate): the first matching descendant. -/
def findDesc (e : XmlElem) (p : XmlElem → Bool) : Option XmlElem :=
  (XmlElem.descendants e).find? p

/-- The children of an element carrying a given tag, in order. -/
def childrenTagged (e : XmlElem) (t : String) : List XmlElem :=
  e.children.filter (fun c => c.tag == t)

/-- find('.//PRED/Child'): the first child with the given tag under a
matching descendant. -/
def findDescChild (e : XmlElem) (p : XmlElem → Bool) (childTag : String) :
    Option XmlElem :=
  (((XmlElem.descendants e).filter p).flatMap (fun d => childrenTagged d childTag)).head?

/-- find('.//PRED/Child1/Child2'): two child steps below a matching
descendant. -/
def findDescChild2 (e : XmlElem) (p : XmlElem → Bool) (t1 t2 : String) :
    Option XmlElem :=
  (((XmlElem.descendants e).filter p).flatMap
    (fun d => (childrenTagged d t1).flatMap (fun c => childrenTagged c t2))).head?

/-- Python dict assignment d[k] = v on a string-keyed dict: an existing
key keeps its position, a new key is appended. -/
def dictSet (d : List (String × List (Option String))) (k : String)
    (v : List (Option String)) : List (String × List (Option String)) :=
  if (d.lookup k).isSome then d.map (fun p => if p.1 == k then (k, v) else p)
  else d ++ [(k, v)]

/-- findall('.//*[@Func="Subunit"]'): the zone nodes of the unit
descriptor. -/
def subunitZones (desc : XmlElem) : List XmlElem :=
  findAllDesc desc (fun e => e.getAttr "Func" == some "Subunit")

/-- find('.//Menu[@Title_1="Setup"]') below a zone node. -/
def zoneSetupMenu (su : XmlElem) : Option XmlElem :=
  findDesc su (fun e => e.tag == "Menu" && e.getAttr "Title_1" == some "Setup")

/-- The program list collected for a zone from its Setup menu: the
Straight and Direct pseudo-programs when their Put_1 nodes exist, then
the texts of all Direct nodes below the Program selector's value list
(element texts are optional, exactly as in ElementTree). -/
def zoneProgramsOf (setup : XmlElem) : List (Option String) :=
  let p1 : List (Option String) :=
    if (findDescChild setup (fun e => e.getAttr "Title_1" == some "Straight") "Put_1").isSome
    then [some "Straight"] else []
  let p2 :=
    if (findDescChild setup (fun e => e.getAttr "Title_1" == some "Direct") "Put_1").isSome
    then p1 ++ [some "Direct"] else p1
  match findDescChild2 setup (fun e => e.getAttr "Title_1" == some "Program") "Put_2" "Param_1" with
  | Option.none => p2
  | some programs => p2 ++ (findAllDesc programs (fun e => e.tag == "Direct")).map XmlElem.text

/-- `_build_surround_programs`: walk the Subunit nodes; skip nodes with a
falsy YNC_Tag and nodes without a Setup menu (those zones get no entry at
all); otherwise record the collected program list under the zone tag. -/
def buildSurroundPrograms (desc : XmlElem) : List (String × List (Option String)) :=
  (subunitZones desc).foldl (fun acc su =>
    match su.getAttr "YNC_Tag" with
    | Option.none => acc
    | some z =>
      if z == "" then acc
      else match zoneSetupMenu su with
        | Option.none => acc
        | some setup => dictSet acc z (zoneProgramsOf setup)) []

/-- `get_surround_programs`: zone_surround_programs.get(self.zone), i.e.
None - not an empty list - when the zone has no entry. -/
def getSurroundPrograms (d : List (String × List (Option String))) (zone : String) :
    Option (List (Option String)) :=
  d.lookup zone

/- ## Icon list parsing (rxv.py lines 285-305) -/

/-- Python int() on a string: optional surrounding whitespace, optional
sign, decimal digits; anything else raises ValueError. -/
def pyIntOfString (s : String) : Except PyErr ℤ :=
  match pyStrip s.data with
  | '-' :: rest =>
    match pyDigitsVal rest Option.none with
    | some n => .ok (-(n : ℤ))
    | Option.none => .error .valueError
  | '+' :: rest =>
    match pyDigitsVal rest Option.none with
    | some n => .ok (n : ℤ)
    | Option.none => .error .valueError
  | t =>
    match pyDigitsVal t Option.none with
    | some n => .ok (n : ℤ)
    | Option.none => .error .valueError

/-- Python int(x) where x is an element text (str or None): int(None)
raises TypeError, not ValueError. -/
def pyIntOfOptStr : Option String → Except PyErr ℤ
  | Option.none => .error .typeError
  | some s => pyIntOfString s

/-- findall('device/iconList/icon') relative to the document root. -/
def iconNodes (desc : XmlElem) : List XmlElem :=
  (childrenTagged desc "device").flatMap (fun d =>
    (childrenTagged d "iconList").flatMap (fun il => childrenTagged il "icon"))

/-- The icon_data accumulation loop of `_build_icon_list`: icons without
a url element are skipped; a missing width element gives width 0; int()
errors of kind ValueError (and AttributeError) are swallowed leaving
width 0, while any other exception - in particular the TypeError from
int(None) when the width element is present but empty - propagates. -/
def buildIconData (desc : XmlElem) : Except PyErr (List (ℤ × Option String)) :=
  (iconNodes desc).foldlM (fun acc icon =>
    let widthElem := findDesc icon (fun e => e.tag == "width")
    let urlElem := findDesc icon (fun e => e.tag == "url")
    match urlElem with
    | Option.none => .ok acc
    | some u =>
      match widthElem with
      | Option.none => .ok (acc ++ [(0, u.text)])
      | some w =>
        match pyIntOfOptStr w.text with
        | .ok n => .ok (acc ++ [(n, u.text)])
        | .error .valueError => .ok (acc ++ [(0, u.text)])
        | .error .attributeError => .ok (acc ++ [(0, u.text)])
        | .error e => .error e) []

/-- One step of a stable descending insertion by first component: the new
element (later in document order) goes after every element with an equal
or larger width. -/
def insertDescFst (x : ℤ × Option String) :
    List (ℤ × Option String) → List (ℤ × Option String)
  | [] => [x]
  | y :: ys => if y.1 < x.1 then x :: y :: ys else y :: insertDescFst x ys

/-- icon_data.sort(key=lambda x: x[0], reverse=True): Python's sort is
stable and reverse=True keeps equal keys in document order; any stable
descending sort computes the same list, here an insertion sort. -/
def pySortDescFst (l : List (ℤ × Option String)) : List (ℤ × Option String) :=
  l.foldl (fun acc x => insertDescFst x acc) []

/-- `_build_icon_list`: accumulate icon_data, sort it by descending
width, return the url components. -/
def buildIconList (desc : XmlElem) : Except PyErr (List (Option String)) :=
  match buildIconData desc with
  | .error e => .error e
  | .ok data => .ok ((pySortDescFst data).map (fun p => p.2))

/- ## Concrete fixtures for the testable scenarios -/

/-- An icon node with a width element (possibly empty) and a url. -/
def iconElem (widthText : Option String) (url : String) : XmlElem :=
  .mk "icon" [] Option.none
    (XmlForest.ofList [.mk "width" [] widthText .nil, .mk "url" [] (some url) .nil])

/-- A device descriptor holding the given icon nodes. -/
def iconDescOf (icons : List XmlElem) : XmlElem :=
  .mk "root" [] Option.none
    (XmlForest.ofList [.mk "device" [] Option.none
      (XmlForest.ofList [.mk "iconList" [] Option.none (XmlForest.ofList icons)])])

/-- Descriptor with declared icon widths [32, 16, 64]. -/
def iconExampleDesc : XmlElem :=
  iconDescOf [iconElem (some "32") "u32", iconElem (some "16") "u16",
    iconElem (some "64") "u64"]

/-- Descriptor whose single icon has a present but empty width element. -/
def iconBadDesc : XmlElem :=
  iconDescOf [iconElem Option.none "u"]

/-- Unit descriptor with two Subunit zones, the second without a Setup
menu. -/
def unitDescNoSetup : XmlElem :=
  .mk "Unit_Description" [] Option.none
    (XmlForest.ofList
      [.mk "Menu" [("Func", "Subunit"), ("YNC_Tag", "Main_Zone")] Option.none
         (XmlForest.ofList [.mk "Menu" [("Title_1", "Setup")] Option.none .nil]),
       .mk "Menu" [("Func", "Subunit"), ("YNC_Tag", "Zone_2")] Option.none .nil])

/-- A small capability record for concrete checks. -/
def deviceInfoEx : RXVDeviceinfoM :=
  { deviceId := "id0", friendlyName := "fn", manufacturer := "Yamaha",
    modelName := "RX-V573", serialNumber := "sn", icons := [],
    zones := ["Main_Zone", "Zone_2"], commands := [],
    zoneSurroundPrograms := [("Main_Zone", ["Straight", "Direct", "Hall"])],
    sourcePlayMethods := [("NET_RADIO", ["Play", "Stop"])],
    sourceCursorActions := [], inputsSource := [("NET RADIO", "NET_RADIO")],
    scenesNumber := [] }

/- # Helper lemmas -/

/-- pyTrunc lies between floor and ceiling. -/
theorem pyTrunc_bounds (q : ℚ) : ⌊q⌋ ≤ pyTrunc q ∧ pyTrunc q ≤ ⌈q⌉ := by
  unfold pyTrunc
  split
  · exact ⟨le_refl _, Int.floor_le_ceil q⟩
  · exact ⟨Int.floor_le_ceil q, le_refl _⟩

/-- pyRoundHalfEven lies between floor and ceiling. -/
theorem pyRoundHalfEven_bounds (q : ℚ) :
    ⌊q⌋ ≤ pyRoundHalfEven q ∧ pyRoundHalfEven q ≤ ⌈q⌉ := by
  have hceil : (1 : ℚ)/2 ≤ q - ⌊q⌋ → ⌊q⌋ + 1 ≤ ⌈q⌉ := by
    intro h
    have : (⌊q⌋ : ℚ) < q := by linarith
    exact Int.add_one_le_iff.mpr (Int.lt_ceil.mpr this)
  unfold pyRoundHalfEven
  split
  next => exact ⟨le_refl _, Int.floor_le_ceil q⟩
  next h =>
    split
    next h2 => exact ⟨by omega, hceil (by linarith)⟩
    next h2 =>
      split
      next => exact ⟨le_refl _, Int.floor_le_ceil q⟩
      next => exact ⟨by omega, hceil (by linarith)⟩

/- # Claim theorems -/

/-- Claim C5: for every float V passed to async_set_volume, the
transmitted integer equals int(V*2)*5, which is a multiple of 5, and
reading the volume back through async_get_volume yields a value within
one half-dB step (0.5) of round(V*2)/2. -/
theorem c5_volume_roundtrip (v : ℚ) :
    asyncSetVolumeVal v = pyTrunc (v * 2) * 5
    ∧ (5 : ℤ) ∣ asyncSetVolumeVal v
    ∧ |asyncGetVolume (asyncSetVolumeVal v) - (pyRoundHalfEven (v * 2) : ℚ) / 2| ≤ 1 / 2 := by
  refine ⟨rfl, dvd_mul_left 5 _, ?_⟩
  have hb1 := pyTrunc_bounds (v * 2)
  have hb2 := pyRoundHalfEven_bounds (v * 2)
  have hcf : ⌈v * 2⌉ ≤ ⌊v * 2⌋ + 1 := Int.ceil_le_floor_add_one _
  set t := pyTrunc (v * 2) with ht
  set r := pyRoundHalfEven (v * 2) with hr
  have hget : asyncGetVolume (asyncSetVolumeVal v) = (t : ℚ) / 2 := by
    show ((t * 5 : ℤ) : ℚ) / 10 = (t : ℚ) / 2
    push_cast
    ring
  rw [hget, div_sub_div_same]
  have hdz : |t - r| ≤ 1 := abs_le.mpr ⟨by omega, by omega⟩
  have hcast : |(t : ℚ) - (r : ℚ)| ≤ 1 := by
    have h1 : ((t - r : ℤ) : ℚ) = (t : ℚ) - (r : ℚ) := by push_cast; ring
    rw [← h1, ← Int.cast_abs]
    exact_mod_cast hdz
  rw [abs_div]
  have h2 : |(2 : ℚ)| = 2 := by norm_num
  rw [h2]
  linarith

/-- Claim C4: for every input source, explicit or resolved from the
device's current input, async_get_playback_support returns all five flags
False and async_is_playback_supported returns False, because the
two-element tuple returned by _async_get_src_name is used unchanged as
the key into the string-keyed source_play_methods dict. -/
theorem c4_playback_support_always_false (inputsSource : List (String × String))
    (methods : List (String × List String)) (zone devInput : String)
    (inputSource : Option String) :
    (asyncGetPlaybackSupport inputsSource methods zone devInput inputSource).2
      = { play := false, stop := false, pause := false, skip_f := false, skip_r := false }
    ∧ (asyncIsPlaybackSupported inputsSource methods zone devInput inputSource).2 = false :=
  ⟨rfl, rfl⟩

/-- The events recorded by _async_get_src_name: one input GET when no
explicit input is passed, none otherwise. -/
theorem getSrcName_trace (inputsSource : List (String × String)) (zone devInput : String)
    (arg : Option String) :
    (asyncGetSrcName inputsSource zone devInput arg).1
      = match arg with | some _ => [] | Option.none => [PbEv.getInput] := by
  cases arg <;> unfold asyncGetSrcName <;> dsimp only <;>
    (split <;> first | rfl | (split <;> rfl))

/-- async_is_playback_supported always reports False (the tuple-keyed
dict lookup never hits). -/
theorem isPlaybackSupported_snd_false (inputsSource : List (String × String))
    (methods : List (String × List String)) (zone devInput : String)
    (arg : Option String) :
    (asyncIsPlaybackSupported inputsSource methods zone devInput arg).2 = false := rfl

/-- The playback-support trace is the source-resolution trace. -/
theorem playbackSupport_trace (inputsSource : List (String × String))
    (methods : List (String × List String)) (zone devInput : String)
    (arg : Option String) :
    (asyncIsPlaybackSupported inputsSource methods zone devInput arg).1
      = (asyncGetSrcName inputsSource zone devInput arg).1 := rfl

/-- _async_playback_control never records a Play_Control PUT. -/
theorem playbackControl_no_playPut (inputsSource : List (String × String))
    (methods : List (String × List String)) (zone devInput action s a : String) :
    PbEv.playPut s a ∉ (asyncPlaybackControl inputsSource methods zone devInput action).1 := by
  unfold asyncPlaybackControl
  simp only [isPlaybackSupported_snd_false]
  split
  · rw [getSrcName_trace]
    simp
  · simp only [playbackSupport_trace, getSrcName_trace]
    split
    · split <;> simp
    · simp_all

/-- Claim C3: when the requested playback action is not in the resolved
current source's advertised playback-method set, the operation fails with
PlaybackUnavailable and no Play_Control command is recorded; a
Play_Control command only ever appears in a trace when the action is
advertised for the source it names. -/
theorem c3_unadvertised_action_rejected (inputsSource : List (String × String))
    (methods : List (String × List String)) (zone devInput action : String)
    (hsrc : pyTruthy (playbackResolved inputsSource zone devInput).1 = true)
    (_hadv : action ∉ (methods.lookup
      (pyValStr (playbackResolved inputsSource zone devInput).1)).getD []) :
    (asyncPlaybackControl inputsSource methods zone devInput action).2
      = .error (.playbackUnavailable (playbackResolved inputsSource zone devInput).2 action)
    ∧ (∀ s a, PbEv.playPut s a ∉ (asyncPlaybackControl inputsSource methods zone devInput action).1)
    ∧ (∀ s a, PbEv.playPut s a ∈ (asyncPlaybackControl inputsSource methods zone devInput action).1 →
        a ∈ (methods.lookup s).getD []) := by
  refine ⟨?_, fun s a => playbackControl_no_playPut inputsSource methods zone devInput action s a,
    fun s a h => absurd h (playbackControl_no_playPut inputsSource methods zone devInput action s a)⟩
  have hs' : pyTruthy (asyncGetSrcName inputsSource zone devInput Option.none).2.1 = true := hsrc
  simp [asyncPlaybackControl, isPlaybackSupported_snd_false, hs', playbackResolved]

/-- Witness for C3: Skip Fwd on a source advertising only Play and Stop
is rejected with PlaybackUnavailable. -/
theorem c3_witness :
    (asyncPlaybackControl [("AV1", "AV_1")] [("AV_1", ["Play", "Stop"])]
        "Main_Zone" "AV1" "Skip Fwd").2
      = .error (.playbackUnavailable
          (playbackResolved [("AV1", "AV_1")] "Main_Zone" "AV1").2 "Skip Fwd") :=
  (c3_unadvertised_action_rejected [("AV1", "AV_1")] [("AV_1", ["Play", "Stop"])]
    "Main_Zone" "AV1" "Skip Fwd" (by decide) (by decide)).1

/-- Claim C6: async_get_surround_program resolves Direct, then Straight,
then the reported Sound_Program name, in that precedence order. -/
theorem c6_surround_get_precedence (cfg : SurroundCfg) (dev : SurroundDevice) :
    ((asyncGetDirectMode cfg dev).2 = true →
      (asyncGetSurroundProgram cfg dev).2 = "Direct")
    ∧ ((asyncGetDirectMode cfg dev).2 = false → dev.straightText = "On" →
      (asyncGetSurroundProgram cfg dev).2 = "Straight")
    ∧ ((asyncGetDirectMode cfg dev).2 = false → dev.straightText ≠ "On" →
      (asyncGetSurroundProgram cfg dev).2 = dev.soundProgramText) := by
  refine ⟨fun h => ?_, fun h hs => ?_, fun h hs => ?_⟩ <;>
    unfold asyncGetSurroundProgram <;> simp [h]
  · simp [hs]
  · simp [hs]

/-- Witness for C6: with direct mode reported On the result is Direct
even though the device reports a different Sound_Program. -/
theorem c6_witness :
    (asyncGetSurroundProgram ⟨"Main_Zone", [("Main_Zone", ["Straight", "Direct", "Hall"])]⟩
      ⟨"On", "Off", "Hall"⟩).2 = "Direct" :=
  (c6_surround_get_precedence ⟨"Main_Zone", [("Main_Zone", ["Straight", "Direct", "Hall"])]⟩
    ⟨"On", "Off", "Hall"⟩).1 (by decide)

/-- Claim C1: setting any supported surround program other than Direct
issues, among the device calls, exactly the PUT disabling Direct mode
followed by the PUT selecting Straight or the named Sound_Program when
Direct mode is reported active, and only the program-selection PUT when
it is not; the operation succeeds in both cases. -/
theorem c1_set_surround_clears_direct_first (cfg : SurroundCfg) (dev : SurroundDevice)
    (surroundName : String) (hmem : surroundName ∈ cfg.programs)
    (hne : surroundName ≠ "Direct") :
    ((asyncGetDirectMode cfg dev).2 = true →
      putsOf (asyncSetSurroundProgram cfg dev surroundName).1
        = [mkReq cfg.zone "PUT" (directModeBody "<Mode>Off</Mode>") true,
           setSurroundProgramReq cfg surroundName]
      ∧ (asyncSetSurroundProgram cfg dev surroundName).2 = .ok ())
    ∧ ((asyncGetDirectMode cfg dev).2 = false →
      putsOf (asyncSetSurroundProgram cfg dev surroundName).1
        = [setSurroundProgramReq cfg surroundName]
      ∧ (asyncSetSurroundProgram cfg dev surroundName).2 = .ok ()) := by
  have hbeq : (surroundName == "Direct") = false := by
    simp [hne]
  constructor
  · intro hact
    have hdmem : "Direct" ∈ cfg.programs := by
      by_contra hd
      rw [show asyncGetDirectMode cfg dev = ([], false) from by
        unfold asyncGetDirectMode; simp [hd]] at hact
      simp at hact
    have hget : asyncGetDirectMode cfg dev
        = ([mkReq cfg.zone "GET" (directModeBody "<Mode>GetParam</Mode>") true],
           dev.directModeText == "On") := by
      unfold asyncGetDirectMode; simp [hdmem]
    have hset : asyncSetDirectMode cfg false
        = .ok [mkReq cfg.zone "PUT" (directModeBody "<Mode>Off</Mode>") true] := by
      unfold asyncSetDirectMode; simp [hdmem]
    rw [hget] at hact
    replace hact : dev.directModeText = "On" := by simpa using hact
    unfold asyncSetSurroundProgram
    rw [if_pos hmem]
    simp [hbeq, hget, hset, hact, putsOf, mkReq, setSurroundProgramReq]
  · intro hact
    unfold asyncSetSurroundProgram
    rw [if_pos hmem]
    by_cases hd : "Direct" ∈ cfg.programs
    · have hget : asyncGetDirectMode cfg dev
          = ([mkReq cfg.zone "GET" (directModeBody "<Mode>GetParam</Mode>") true],
             dev.directModeText == "On") := by
        unfold asyncGetDirectMode; simp [hd]
      rw [hget] at hact
      replace hact : ¬ dev.directModeText = "On" := by simpa using hact
      simp [hbeq, hget, hact, putsOf, mkReq, setSurroundProgramReq]
    · have hget : asyncGetDirectMode cfg dev = ([], false) := by
        unfold asyncGetDirectMode; simp [hd]
      simp [hbeq, hget, putsOf, mkReq, setSurroundProgramReq]

/-- Witness for C1: with Direct reported active, selecting "Hall" puts
the direct-off request first, then the program request. -/
theorem c1_witness :
    putsOf (asyncSetSurroundProgram
        ⟨"Main_Zone", [("Main_Zone", ["Straight", "Direct", "Hall"])]⟩
        ⟨"On", "Off", "Adventure"⟩ "Hall").1
      = [mkReq "Main_Zone" "PUT" (directModeBody "<Mode>Off</Mode>") true,
         setSurroundProgramReq
           ⟨"Main_Zone", [("Main_Zone", ["Straight", "Direct", "Hall"])]⟩ "Hall"]
    ∧ (asyncSetSurroundProgram
        ⟨"Main_Zone", [("Main_Zone", ["Straight", "Direct", "Hall"])]⟩
        ⟨"On", "Off", "Adventure"⟩ "Hall").2 = .ok () :=
  (c1_set_surround_clears_direct_first
    ⟨"Main_Zone", [("Main_Zone", ["Straight", "Direct", "Hall"])]⟩
    ⟨"On", "Off", "Adventure"⟩ "Hall" (by decide) (by decide)).1 (by decide)

/-- zone_controllers succeeds on any list of zones drawn from the device
record, producing one controller per zone in order. -/
theorem zoneControllers_aux (r : RXVState) :
    ∀ (l : List String) (acc : List RXVState), (∀ z ∈ l, z ∈ r.device.zones) →
      (List.foldlM (fun acc z =>
        match zoneSet r z with
        | (c, Option.none) => .ok (acc ++ [c])
        | (_, some e) => .error e) acc l : Except PyErr (List RXVState))
        = .ok (acc ++ l.map (fun zn => { r with zone := zn })) := by
  intro l
  induction l with
  | nil =>
    intro acc _
    rw [List.foldlM_nil]
    show Except.ok acc = Except.ok (acc ++ List.map (fun zn => { r with zone := zn }) [])
    simp
  | cons z tl ih =>
    intro acc h
    have hz : z ∈ r.device.zones := h z (List.mem_cons_self z tl)
    have hstep : zoneSet r z = ({ r with zone := z }, Option.none) := by
      unfold zoneSet; rw [if_pos hz]
    have hbind : ∀ (x : List RXVState) (g : List RXVState → Except PyErr (List RXVState)),
        (Except.ok x >>= g) = g x := fun x g => rfl
    rw [List.foldlM_cons]
    simp only [hstep, hbind]
    refine (ih (acc ++ [{ r with zone := z }])
      (fun x hx => h x (List.mem_cons_of_mem z hx))).trans ?_
    simp

/-- Claim C8: zone_controllers yields one controller per discovered zone,
in order, each reading back that zone and sharing the device record; a
zone name outside the zone list makes the zone setter fail with the
assertion (validation) error and leaves the state unchanged. -/
theorem c8_zone_controllers (r : RXVState) (badZone : String)
    (hbad : badZone ∉ r.device.zones) :
    zoneControllers r = .ok (r.device.zones.map (fun zn => { r with zone := zn }))
    ∧ (r.device.zones.map (fun zn => ({ r with zone := zn } : RXVState))).map RXVState.zone
        = r.device.zones
    ∧ (∀ c ∈ r.device.zones.map (fun zn => ({ r with zone := zn } : RXVState)),
        c.device = r.device)
    ∧ zoneSet r badZone = (r, some PyErr.assertionError) := by
  refine ⟨?_, ?_, ?_, ?_⟩
  · unfold zoneControllers
    simpa using zoneControllers_aux r r.device.zones [] (fun z hz => hz)
  · simp only [List.map_map]
    have hid : (RXVState.zone ∘ fun zn => ({ r with zone := zn } : RXVState)) = id := by
      funext x; rfl
    rw [hid, List.map_id]
  · intro c hc
    simp at hc
    obtain ⟨zn, _, rfl⟩ := hc
    rfl
  · unfold zoneSet
    rw [if_neg hbad]

/-- Witness for C8: a two-zone device yields the two controllers, and
selecting the unknown zone Zone_3 is rejected with the state unchanged. -/
theorem c8_witness :
    zoneControllers ⟨"Main_Zone", deviceInfoEx⟩
      = .ok [⟨"Main_Zone", deviceInfoEx⟩, ⟨"Zone_2", deviceInfoEx⟩]
    ∧ zoneSet ⟨"Main_Zone", deviceInfoEx⟩ "Zone_3"
      = (⟨"Main_Zone", deviceInfoEx⟩, some PyErr.assertionError) := by
  have h := c8_zone_controllers ⟨"Main_Zone", deviceInfoEx⟩ "Zone_3" (by decide)
  exact ⟨by rw [h.1]; rfl, h.2.2.2⟩

/-- In the traversal loop, a device that never reports ready produces one
poll per attempt and the loop falls through with the silent ok. -/
theorem menuLoop_neverReady {σ : Type} (dev : MenuDevice σ)
    (hnr : ∀ s, (dev.menuStatus s).ready = false)
    (inputsSource : List (String × String)) (zone srv : String)
    (hsrv : inputsSource.lookup "SERVER" = some srv) (hne : srv ≠ "")
    (layers : List String) :
    ∀ (fuel : Nat) (s : σ),
      menuLoop dev inputsSource zone "SERVER" layers fuel s
        = (List.replicate fuel MenuEv.poll, .ok ()) := by
  have hres : resolveSrc inputsSource zone "SERVER" = (some srv, some "SERVER") := by
    unfold resolveSrc
    rw [hsrv]
    rfl
  have h1 : pyOptTruthy (some srv) = true := by simp [pyOptTruthy, hne]
  intro fuel
  induction fuel with
  | zero => intro s; rfl
  | succ n ih =>
    intro s
    unfold menuLoop
    rw [hres]
    simp only [h1, hnr, Bool.true_eq_false, if_false, Bool.false_eq_true, ih s,
      List.replicate_succ]

/-- In the traversal loop, the immediately-ready simulated device
advances one layer per attempt and finishes at the path's final layer:
starting m layers from the end with at least m attempts of fuel, the
loop succeeds using exactly m polls. -/
theorem menuLoop_good (layers : List String) (inputsSource : List (String × String))
    (zone srv : String)
    (hsrv : inputsSource.lookup "SERVER" = some srv) (hne : srv ≠ "") :
    ∀ (m k fuel : Nat), k + m = layers.length → 0 < m → m ≤ fuel →
      ∃ evs, menuLoop (goodServerDevice layers) inputsSource zone "SERVER" layers fuel k
          = (evs, .ok ()) ∧ pollCount evs = m := by
  have hres : resolveSrc inputsSource zone "SERVER" = (some srv, some "SERVER") := by
    unfold resolveSrc
    rw [hsrv]
    rfl
  have h1 : pyOptTruthy (some srv) = true := by simp [pyOptTruthy, hne]
  have hms : ∀ k, (goodServerDevice layers).menuStatus k
      = { ready := true, layer := (k : ℤ) + 1, name := "", currentLine := 1, maxLine := 1,
          currentList := [("Line_1", layers.getD k "")] } := fun _ => rfl
  have hds : ∀ (k : Nat) (s : String), (goodServerDevice layers).directSel k s = k + 1 :=
    fun _ _ => rfl
  intro m
  induction m with
  | zero => intro k fuel hk h0; omega
  | succ n ih =>
    intro k fuel hk h0 hf
    obtain ⟨f, rfl⟩ : ∃ f, fuel = f + 1 := ⟨fuel - 1, by omega⟩
    have hklt : k < layers.length := by omega
    have hidx : pyIndex layers ((k : ℤ) + 1 - 1) = .ok (layers.getD k "") := by
      unfold pyIndex
      have h2 : ((k : ℤ) + 1 - 1) = (k : ℤ) := by ring
      rw [h2]
      rw [if_neg (show ¬ (k : ℤ) < 0 by omega)]
      rw [if_pos ⟨by omega, by exact_mod_cast hklt⟩]
      simp
    have hfind : List.find? (fun p => p.2 == layers.getD k "")
        [("Line_1", layers.getD k "")] = some ("Line_1", layers.getD k "") := by
      simp
    unfold menuLoop
    rw [hres]
    simp only [h1, Bool.true_eq_false, if_false, hms, hds, hidx, hfind]
    by_cases hlast : (k : ℤ) + 1 = (layers.length : ℤ)
    · have hbeq : ((k : ℤ) + 1 == (layers.length : ℤ)) = true := by
        simp [hlast]
      simp only [hbeq, if_true]
      refine ⟨[MenuEv.poll, MenuEv.directSel (pyDropChars "Line_1" 5)], by simp, ?_⟩
      have hn0 : n = 0 := by omega
      simp [hn0, pollCount]
    · have hbeq : ((k : ℤ) + 1 == (layers.length : ℤ)) = false := by
        simp [hlast]
      simp only [hbeq, Bool.false_eq_true, if_false]
      have hn : 0 < n := by
        rcases Nat.eq_zero_or_pos n with h | h
        · exfalso; apply hlast; subst h; omega
        · exact h
      obtain ⟨evs, heq, hpc⟩ := ih (k + 1) f (by omega) hn (by omega)
      simp only [heq]
      refine ⟨MenuEv.poll :: MenuEv.directSel (pyDropChars "Line_1" 5) :: evs, by simp, ?_⟩
      simp [pollCount] at hpc ⊢
      omega

/-- async_set_server = the input PUT followed by the traversal loop when
SERVER is a known input. -/
theorem setServer_eq {σ : Type} (dev : MenuDevice σ)
    (inputsSource : List (String × String)) (zone path : String) (s : σ) (srv : String)
    (hsrv : inputsSource.lookup "SERVER" = some srv) :
    asyncSetServer dev inputsSource zone path s
      = (MenuEv.setInput "SERVER"
          :: (menuLoop dev inputsSource zone "SERVER" (pySplitGt path) 20 s).1,
         (menuLoop dev inputsSource zone "SERVER" (pySplitGt path) 20 s).2) := by
  unfold asyncSetServer asyncSetInputM
  rw [hsrv]
  rfl

/-- Counterexample to C2 as stated: with a device that never reports
ready, async_set_server polls exactly 20 times and then returns the
silent ok - no failure of any kind is signalled to the caller. -/
theorem c2_counterexample :
    (asyncSetServer neverReadyDevice [("SERVER", "SERVER")] "Main_Zone" "A>B" ()).2 = .ok ()
    ∧ pollCount (asyncSetServer neverReadyDevice
        [("SERVER", "SERVER")] "Main_Zone" "A>B" ()).1 = 20
    ∧ ∀ e, (asyncSetServer neverReadyDevice [("SERVER", "SERVER")] "Main_Zone" "A>B" ()).2
        ≠ .error e := by
  refine ⟨rfl, by decide, ?_⟩
  intro e h
  rw [show (asyncSetServer neverReadyDevice [("SERVER", "SERVER")] "Main_Zone" "A>B" ()).2
    = .ok () from rfl] at h
  exact Except.noConfusion h

/-- Claim C2 (amended): a never-ready device makes async_set_server stop
after exactly 20 polls, returning the silent ok rather than an error; an
immediately-ready device showing each path segment at its layer completes
with one poll per layer of the '>'-separated path; async_set_net_radio
instead aborts with AttributeError from its menu-reset step before any
polling. -/
theorem c2_traversal_bounds {σ : Type} (dev : MenuDevice σ) (s0 : σ)
    (hnr : ∀ s, (dev.menuStatus s).ready = false)
    (inputsSource : List (String × String)) (srv : String)
    (hsrv : inputsSource.lookup "SERVER" = some srv) (hne : srv ≠ "")
    (hnet : (inputsSource.lookup "NET RADIO").isSome = true)
    (zone path goodPath : String)
    (hg0 : 0 < (pySplitGt goodPath).length) (hg20 : (pySplitGt goodPath).length ≤ 20) :
    ((asyncSetServer dev inputsSource zone path s0).2 = .ok ()
      ∧ pollCount (asyncSetServer dev inputsSource zone path s0).1 = 20)
    ∧ ((asyncSetServer (goodServerDevice (pySplitGt goodPath)) inputsSource zone
          goodPath 0).2 = .ok ()
      ∧ pollCount (asyncSetServer (goodServerDevice (pySplitGt goodPath)) inputsSource zone
          goodPath 0).1 = (pySplitGt goodPath).length)
    ∧ ((asyncSetNetRadio dev inputsSource zone path s0).2 = .error .attributeError
      ∧ pollCount (asyncSetNetRadio dev inputsSource zone path s0).1 = 0) := by
  have hloop := menuLoop_neverReady dev hnr inputsSource zone srv hsrv hne (pySplitGt path) 20 s0
  have hsrvEq := setServer_eq dev inputsSource zone path s0 srv hsrv
  obtain ⟨evs, heq, hpc⟩ := menuLoop_good (pySplitGt goodPath) inputsSource zone srv hsrv hne
    (pySplitGt goodPath).length 0 20 (by omega) hg0 hg20
  have hsrvEq2 := setServer_eq (goodServerDevice (pySplitGt goodPath)) inputsSource zone
    goodPath 0 srv hsrv
  refine ⟨⟨?_, ?_⟩, ⟨?_, ?_⟩, ?_, ?_⟩
  · rw [hsrvEq, hloop]
  · rw [hsrvEq, hloop]
    decide
  · rw [hsrvEq2, heq]
  · rw [hsrvEq2, heq]
    show pollCount (MenuEv.setInput "SERVER" :: evs) = _
    rw [show pollCount (MenuEv.setInput "SERVER" :: evs) = pollCount evs from rfl, hpc]
  · unfold asyncSetNetRadio asyncSetInputM
    rw [show (inputsSource.lookup "NET RADIO").isSome = true from hnet]
    rfl
  · unfold asyncSetNetRadio asyncSetInputM
    rw [show (inputsSource.lookup "NET RADIO").isSome = true from hnet]
    rfl

/-- Witness for C2 (amended): concrete never-ready and ready devices. -/
theorem c2_witness :
    ((asyncSetServer neverReadyDevice [("SERVER", "SERVER"), ("NET RADIO", "NET_RADIO")]
        "Main_Zone" "A>B" ()).2 = .ok ()
      ∧ pollCount (asyncSetServer neverReadyDevice
          [("SERVER", "SERVER"), ("NET RADIO", "NET_RADIO")] "Main_Zone" "A>B" ()).1 = 20)
    ∧ ((asyncSetServer (goodServerDevice (pySplitGt "A>B>C"))
          [("SERVER", "SERVER"), ("NET RADIO", "NET_RADIO")] "Main_Zone" "A>B>C" 0).2 = .ok ()
      ∧ pollCount (asyncSetServer (goodServerDevice (pySplitGt "A>B>C"))
          [("SERVER", "SERVER"), ("NET RADIO", "NET_RADIO")] "Main_Zone" "A>B>C" 0).1
        = (pySplitGt "A>B>C").length)
    ∧ ((asyncSetNetRadio neverReadyDevice [("SERVER", "SERVER"), ("NET RADIO", "NET_RADIO")]
          "Main_Zone" "A>B" ()).2 = .error .attributeError
      ∧ pollCount (asyncSetNetRadio neverReadyDevice
          [("SERVER", "SERVER"), ("NET RADIO", "NET_RADIO")] "Main_Zone" "A>B" ()).1 = 0) :=
  c2_traversal_bounds neverReadyDevice () (fun _ => rfl)
    [("SERVER", "SERVER"), ("NET RADIO", "NET_RADIO")] "SERVER"
    (by decide) (by decide) (by decide) "Main_Zone" "A>B" "A>B>C" (by decide) (by decide)

/-- Claim C7 (code evaluation): async_menu_reset raises AttributeError -
its body refers to the undefined attributes menu_status and menu_return -
so async_set_net_radio aborts right after the input switch: no Return
cursor command is issued and the menu is never reset or polled. -/
theorem c7_menu_reset_attribute_error :
    asyncMenuReset = .error PyErr.attributeError
    ∧ (asyncSetNetRadio neverReadyDevice [("NET RADIO", "NET_RADIO")] "Main_Zone"
        "Bookmarks>Internet>Radio Paradise" ()).2 = .error PyErr.attributeError
    ∧ (asyncSetNetRadio neverReadyDevice [("NET RADIO", "NET_RADIO")] "Main_Zone"
        "Bookmarks>Internet>Radio Paradise" ()).1 = [MenuEv.setInput "NET RADIO"] :=
  ⟨rfl, rfl, rfl⟩

/-- Replacing the value of key k in a dict leaves lookups of other keys
unchanged. -/
theorem lookup_map_replace (z k : String) (v : List (Option String))
    (h : z ≠ k) :
    ∀ (d : List (String × List (Option String))),
      List.lookup z (d.map (fun p => if p.1 == k then (k, v) else p)) = List.lookup z d := by
  intro d
  induction d with
  | nil => rfl
  | cons p tl ih =>
    show List.lookup z ((if p.1 == k then (k, v) else p) :: _) = _
    by_cases hp : (p.1 == k) = true
    · rw [if_pos hp]
      have hp' : p.1 = k := by simpa using hp
      have hz1 : (z == k) = false := by simp [h]
      have hz2 : (z == p.1) = false := by simp [hp', h]
      simp only [List.lookup, hz1, hz2, ih]
    · rw [if_neg hp]
      simp only [List.lookup, ih]

/-- Appending a binding for key k leaves lookups of other keys
unchanged. -/
theorem lookup_append_single (z k : String) (v : List (Option String))
    (h : z ≠ k) :
    ∀ (d : List (String × List (Option String))),
      List.lookup z (d ++ [(k, v)]) = List.lookup z d := by
  intro d
  induction d with
  | nil =>
    have hz : (z == k) = false := by simp [h]
    simp [List.lookup, hz]
  | cons p tl ih =>
    rw [List.cons_append]
    show (match z == p.1 with
      | true => some p.2
      | false => List.lookup z (tl ++ [(k, v)]))
      = (match z == p.1 with
      | true => some p.2
      | false => List.lookup z tl)
    rw [ih]

/-- Python dict assignment of key k does not change the lookup of any
other key. -/
theorem dictSet_lookup_ne (d : List (String × List (Option String))) (k z : String)
    (v : List (Option String)) (h : z ≠ k) :
    List.lookup z (dictSet d k v) = List.lookup z d := by
  unfold dictSet
  split
  · exact lookup_map_replace z k v h d
  · exact lookup_append_single z k v h d

/-- The _build_surround_programs fold never creates an entry for a zone
whose Subunit nodes all lack a Setup menu. -/
theorem buildSurround_aux (z : String) :
    ∀ (l : List XmlElem) (acc : List (String × List (Option String))),
      (∀ su ∈ l, su.getAttr "YNC_Tag" = some z → (zoneSetupMenu su).isNone = true) →
      List.lookup z acc = Option.none →
      List.lookup z (l.foldl (fun acc su =>
        match su.getAttr "YNC_Tag" with
        | Option.none => acc
        | some zz =>
          if zz == "" then acc
          else match zoneSetupMenu su with
            | Option.none => acc
            | some setup => dictSet acc zz (zoneProgramsOf setup)) acc) = Option.none := by
  intro l
  induction l with
  | nil => intro acc _ hacc; exact hacc
  | cons su tl ih =>
    intro acc h hacc
    rw [List.foldl_cons]
    refine ih _ (fun x hx hgx => h x (List.mem_cons_of_mem su hx) hgx) ?_
    cases hg : su.getAttr "YNC_Tag" with
    | none => simpa [hg] using hacc
    | some zz =>
      by_cases hzz : (zz == "") = true
      · simp [hg, hzz, hacc]
      · cases hsetup : zoneSetupMenu su with
        | none => simp [hg, hzz, hsetup, hacc]
        | some setup =>
          have hne : z ≠ zz := by
            intro he
            have hs := h su (List.mem_cons_self su tl) (by rw [hg, he])
            rw [hsetup] at hs
            simp at hs
          simp only [hg, hzz, Bool.false_eq_true, if_false, hsetup]
          rw [dictSet_lookup_ne _ _ _ _ hne]
          exact hacc

/-- Counterexample to C9 as stated: for the Subunit zone Zone_2 with no
Setup menu, the build succeeds but get_surround_programs yields None
(no entry at all), not an empty collection. -/
theorem c9_counterexample :
    getSurroundPrograms (buildSurroundPrograms unitDescNoSetup) "Zone_2" = Option.none
    ∧ getSurroundPrograms (buildSurroundPrograms unitDescNoSetup) "Zone_2" ≠ some [] := by
  refine ⟨rfl, ?_⟩
  intro h
  rw [show getSurroundPrograms (buildSurroundPrograms unitDescNoSetup) "Zone_2"
    = Option.none from rfl] at h
  exact Option.noConfusion h

/-- Claim C9 (amended): building the capability set from a descriptor
whose Subunit nodes for a zone carry no Setup menu succeeds, the zone is
simply absent from the surround-program map: get_surround_programs
returns None for it, while the defaulted lookups used by the direct-mode
and program-set operations treat it as an empty program list. -/
theorem c9_no_setup_zone_absent (desc : XmlElem) (z : String)
    (hz : ∀ su ∈ subunitZones desc, su.getAttr "YNC_Tag" = some z →
      (zoneSetupMenu su).isNone = true) :
    getSurroundPrograms (buildSurroundPrograms desc) z = Option.none
    ∧ (getSurroundPrograms (buildSurroundPrograms desc) z).getD [] = [] := by
  have h' : getSurroundPrograms (buildSurroundPrograms desc) z = Option.none :=
    buildSurround_aux z (subunitZones desc) [] hz rfl
  exact ⟨h', by rw [h']; rfl⟩

/-- Witness for C9 (amended): the concrete descriptor whose Zone_2 lacks
a Setup menu. -/
theorem c9_witness :
    getSurroundPrograms (buildSurroundPrograms unitDescNoSetup) "Zone_2" = Option.none
    ∧ (getSurroundPrograms (buildSurroundPrograms unitDescNoSetup) "Zone_2").getD [] = [] :=
  c9_no_setup_zone_absent unitDescNoSetup "Zone_2" (by decide)

/-- Membership after a stable descending insertion. -/
theorem insertDescFst_mem (x b : ℤ × Option String) :
    ∀ (l : List (ℤ × Option String)), b ∈ insertDescFst x l ↔ b = x ∨ b ∈ l := by
  intro l
  induction l with
  | nil => simp [insertDescFst]
  | cons y ys ih =>
    unfold insertDescFst
    split
    · simp [List.mem_cons]
    · simp [List.mem_cons, ih]
      tauto

/-- A stable descending insertion into a descending-sorted list keeps it
sorted. -/
theorem insertDescFst_sorted (x : ℤ × Option String) :
    ∀ (l : List (ℤ × Option String)), l.Pairwise (fun a b => b.1 ≤ a.1) →
      (insertDescFst x l).Pairwise (fun a b => b.1 ≤ a.1) := by
  intro l
  induction l with
  | nil => intro _; simp [insertDescFst]
  | cons y ys ih =>
    intro h
    rw [List.pairwise_cons] at h
    obtain ⟨hy, hys⟩ := h
    unfold insertDescFst
    split
    next hlt =>
      rw [List.pairwise_cons]
      refine ⟨?_, by rw [List.pairwise_cons]; exact ⟨hy, hys⟩⟩
      intro b hb
      rcases List.mem_cons.mp hb with rfl | hb2
      · omega
      · have := hy b hb2
        omega
    next hge =>
      rw [List.pairwise_cons]
      refine ⟨?_, ih hys⟩
      intro b hb
      rcases (insertDescFst_mem x b ys).mp hb with rfl | hb2
      · omega
      · exact hy b hb2

/-- The output of the modelled Python sort is descending in the declared
widths. -/
theorem pySortDescFst_sorted (l : List (ℤ × Option String)) :
    (pySortDescFst l).Pairwise (fun a b => b.1 ≤ a.1) := by
  unfold pySortDescFst
  suffices h : ∀ acc, acc.Pairwise (fun (a b : ℤ × Option String) => b.1 ≤ a.1) →
      (l.foldl (fun acc x => insertDescFst x acc) acc).Pairwise (fun a b => b.1 ≤ a.1) by
    exact h [] (by simp)
  induction l with
  | nil => intro acc h; simpa using h
  | cons x xs ih =>
    intro acc h
    rw [List.foldl_cons]
    exact ih _ (insertDescFst_sorted x acc h)

/-- In a descending-sorted list whose members all have width below w,
nothing has width w. -/
theorem filter_width_nil (w : ℤ) :
    ∀ (l : List (ℤ × Option String)), (∀ b ∈ l, b.1 < w) →
      l.filter (fun p => p.1 == w) = [] := by
  intro l
  induction l with
  | nil => intro _; rfl
  | cons y ys ih =>
    intro h
    have hy : (y.1 == w) = false := by
      have := h y (List.mem_cons_self y ys)
      simp
      omega
    rw [List.filter_cons_of_neg (by simp [hy])]
    exact ih (fun b hb => h b (List.mem_cons_of_mem y hb))

/-- Stable insertion places the new element after every equal width:
the width-w sublist grows at the end exactly when the new element has
width w. -/
theorem insertDescFst_filter (x : ℤ × Option String) (w : ℤ) :
    ∀ (l : List (ℤ × Option String)), l.Pairwise (fun a b => b.1 ≤ a.1) →
      (insertDescFst x l).filter (fun p => p.1 == w)
        = l.filter (fun p => p.1 == w) ++ (if x.1 == w then [x] else []) := by
  intro l
  induction l with
  | nil =>
    intro _
    show [x].filter (fun p => p.1 == w) = [] ++ (if x.1 == w then [x] else [])
    by_cases hx : (x.1 == w) = true
    · rw [List.filter_cons_of_pos (by simpa using hx), if_pos hx]
      rfl
    · rw [List.filter_cons_of_neg (by simpa using hx), if_neg hx]
      rfl
  | cons y ys ih =>
    intro h
    rw [List.pairwise_cons] at h
    obtain ⟨hy, hys⟩ := h
    unfold insertDescFst
    split
    next hlt =>
      have hrest : (y :: ys).filter (fun p => p.1 == w) = [] ∨ (x.1 == w) = false := by
        by_cases hx : (x.1 == w) = true
        · left
          have hxw : x.1 = w := by simpa using hx
          refine filter_width_nil w (y :: ys) ?_
          intro b hb
          rcases List.mem_cons.mp hb with rfl | hb2
          · omega
          · have := hy b hb2
            omega
        · right
          simpa using hx
      rcases hrest with hnil | hxf
      · rw [show ((y :: ys).filter (fun p => p.1 == w)) = [] from hnil]
        by_cases hx : (x.1 == w) = true
        · rw [List.filter_cons_of_pos (by simpa using hx), hnil, if_pos hx]
          rfl
        · rw [List.filter_cons_of_neg (by simpa using hx), hnil,
            if_neg (by simpa using hx)]
          rfl
      · rw [List.filter_cons_of_neg (by simp [hxf]), if_neg (by simp [hxf])]
        simp
    next hge =>
      by_cases hyw : (y.1 == w) = true
      · rw [List.filter_cons_of_pos (by simpa using hyw),
          List.filter_cons_of_pos (by simpa using hyw), ih hys]
        simp
      · rw [List.filter_cons_of_neg (by simpa using hyw),
          List.filter_cons_of_neg (by simpa using hyw), ih hys]

/-- The modelled Python sort is stable: for every width w, the width-w
entries appear in the output exactly as they appear in the input. -/
theorem pySortDescFst_stable (l : List (ℤ × Option String)) (w : ℤ) :
    (pySortDescFst l).filter (fun p => p.1 == w) = l.filter (fun p => p.1 == w) := by
  unfold pySortDescFst
  suffices h : ∀ (l : List (ℤ × Option String)) (acc : List (ℤ × Option String)),
      acc.Pairwise (fun a b => b.1 ≤ a.1) →
      (l.foldl (fun acc x => insertDescFst x acc) acc).filter (fun p => p.1 == w)
        = acc.filter (fun p => p.1 == w) ++ l.filter (fun p => p.1 == w) by
    simpa using h l [] (by simp)
  intro l'
  induction l' with
  | nil => intro acc _; simp
  | cons x xs ih =>
    intro acc hacc
    rw [List.foldl_cons, ih (insertDescFst x acc) (insertDescFst_sorted x acc hacc),
      insertDescFst_filter x w acc hacc]
    by_cases hx : (x.1 == w) = true
    · rw [if_pos hx, List.filter_cons_of_pos (by simpa using hx)]
      simp
    · rw [if_neg hx, List.filter_cons_of_neg (by simpa using hx)]
      simp

/-- Counterexample to C10 as stated: an icon whose width element is
present but empty does not sort as width 0 - the parse raises TypeError
and no icon list is produced at all. -/
theorem c10_counterexample :
    buildIconList iconBadDesc = .error PyErr.typeError
    ∧ ∀ urls, buildIconList iconBadDesc ≠ .ok urls := by
  refine ⟨rfl, ?_⟩
  intro urls h
  rw [show buildIconList iconBadDesc = .error PyErr.typeError from rfl] at h
  exact Except.noConfusion h

/-- Claim C10 (amended): whenever the icon-data accumulation succeeds
(in particular when every present width element has some text), the
parsed icon URL list is the width-descending stable sort of the
accumulated (width, url) pairs - descending declared widths, ties in
document order, missing width elements and non-integer width texts
counting as width 0 - and the concrete widths [32, 16, 64] produce the
URLs in order [64, 32, 16]; an icon whose width element is present but
empty instead makes the parse fail with TypeError. -/
theorem c10_icon_order (desc : XmlElem) (data : List (ℤ × Option String))
    (hdata : buildIconData desc = .ok data) :
    buildIconList desc = .ok ((pySortDescFst data).map (fun p => p.2))
    ∧ (pySortDescFst data).Pairwise (fun a b => b.1 ≤ a.1)
    ∧ (∀ w, (pySortDescFst data).filter (fun p => p.1 == w)
        = data.filter (fun p => p.1 == w))
    ∧ buildIconList iconExampleDesc = .ok [some "u64", some "u32", some "u16"] := by
  refine ⟨?_, pySortDescFst_sorted data, fun w => pySortDescFst_stable data w, rfl⟩
  unfold buildIconList
  rw [hdata]

/-- Witness for C10 (amended): the [32, 16, 64] descriptor. -/
theorem c10_witness :
    buildIconList iconExampleDesc
      = .ok ((pySortDescFst [(32, some "u32"), (16, some "u16"), (64, some "u64")]).map
          (fun p => p.2)) :=
  (c10_icon_order iconExampleDesc [(32, some "u32"), (16, some "u16"), (64, some "u64")]
    (by rfl)).1
